/-
Verification of the clair service-topology initializer (`Init.Services`, package
`initialize`) and the build-time OpenAPI document generator
(`httptransport/openapigen.go`), as a shallow embedding in Lean 4.

Conventions of the embedding:
* Go maps are modelled as association lists; Go map assignment (`m[k] = v`) is
  `mapAssign`, which replaces an existing binding or appends a new one.
* External collaborators (libindex.New, libvuln.New, conf.Client, client.NewHTTP,
  notifier.New) live outside the translated package; they are parameters of the
  model, gathered in an `Env` of fallible functions returning opaque tokens.
* `Services` mutates fields of `*Init` and may return an error.  The model
  returns a `ServicesResult` recording the constructor calls made (in order),
  the field writes performed (in order), and the returned error, so that
  ordering, partial-write and frame properties are observable.
* Machine integers are `Int` with explicit two's-complement wrapping where Go
  converts between widths (`int32(...)`), and `time.Duration` arithmetic is
  `Int` nanoseconds.
-/
import Mathlib

namespace Clair

/-- An opaque raw YAML configuration node (`yaml.Node` in the Go config); only
its identity matters to the initializer, which wraps it in a decode closure. -/
structure Node where
  val : Nat
deriving DecidableEq, Repr

/-- The closure `node.Decode` built by the initializer for one config node: the
function value is determined by the captured node. -/
structure DecodeClosure where
  node : Node
deriving DecidableEq, Repr

/-- `node.Decode`, the per-node decode closure. -/
def Node.decodeClosure (n : Node) : DecodeClosure := ⟨n⟩

/-- The operation mode from configuration (`config.Mode`).  The four recognized
constants are the four constructors; any other configured value is `unknown`
carrying its `%v` rendering. -/
inductive Mode where
  | combo
  | indexer
  | matcher
  | notifier
  | unknown (s : String)
deriving DecidableEq, Repr

/-- The `%v` rendering of a mode value, used by the unknown-mode error. -/
def Mode.render : Mode → String
  | .combo => "combo"
  | .indexer => "indexer"
  | .matcher => "matcher"
  | .notifier => "notifier"
  | .unknown s => s

/-- A JWT claim; only the issuer field is ever set (`jwt.Claims{Issuer: ...}`). -/
structure Claim where
  issuer : String
deriving DecidableEq, Repr

/-- `NotifierIssuer`, the issuer for the notifier's outgoing requests. -/
def NotifierIssuer : String := "clair-notifier"

/-- Modelled from the spec: `httptransport.IntraserviceIssuer` lives in the
transport package, outside the translated source; the spec (§4.3) fixes two
distinct process-wide claims, intra-service and notifier. -/
def IntraserviceIssuer : String := "clair-intraservice"

/-- `intraserviceClaim`, the claim used for role-to-role calls. -/
def intraserviceClaim : Claim := ⟨IntraserviceIssuer⟩

/-- `notifierClaim`, the claim used for the notifier's own outbound identity. -/
def notifierClaim : Claim := ⟨NotifierIssuer⟩

/-- Scanner configuration from the config file: the three per-ecosystem maps
(`Package`, `Dist`, `Repo`), each either nil or a map from ecosystem name to a
raw config node. -/
structure ScannerConf where
  package : Option (List (String × Node))
  dist : Option (List (String × Node))
  repo : Option (List (String × Node))
deriving DecidableEq, Repr

/-- `i.conf.Indexer`. -/
structure IndexerConf where
  connString : String
  scanLockRetry : Int
  layerScanConcurrency : Int
  migrations : Bool
  airgap : Bool
  scanner : ScannerConf
deriving DecidableEq, Repr

/-- `i.conf.Matcher`. -/
structure MatcherConf where
  maxConnPool : Int
  connString : String
  migrations : Bool
  period : Int
  updateRetention : Int
  indexerAddr : String
deriving DecidableEq, Repr

/-- `i.conf.Notifier`.  `Webhook`, `AMQP` and `STOMP` are pointers to
per-transport delivery settings, modelled as optional opaque tokens. -/
structure NotifierConf where
  deliveryInterval : Int
  connString : String
  migrations : Bool
  pollInterval : Int
  disableSummary : Bool
  webhook : Option Nat
  amqp : Option Nat
  stomp : Option Nat
  indexerAddr : String
  matcherAddr : String
deriving DecidableEq, Repr

/-- `i.conf.Updaters`. -/
structure UpdatersConf where
  config : List (String × Node)
  sets : List String
deriving DecidableEq, Repr

/-- The slice of `i.conf` that `Services` reads.  `authAny` is the result of
`i.conf.Auth.Any()` (whether the authentication policy mandates some method). -/
structure Config where
  mode : Mode
  indexer : IndexerConf
  matcher : MatcherConf
  notifier : NotifierConf
  updaters : UpdatersConf
  authAny : Bool
deriving Repr

/-- Go map assignment `m[k] = v` on an association list: replace the binding if
the key is present, append otherwise. -/
def mapAssign {β : Type} : List (String × β) → String → β → List (String × β)
  | [], k, v => [(k, v)]
  | (k', v') :: rest, k, v =>
      if k' = k then (k, v) :: rest else (k', v') :: mapAssign rest k v

/-- Go map read `m[k]` on an association list. -/
def mapLookup {β : Type} : List (String × β) → String → Option β
  | [], _ => none
  | (k', v') :: rest, k => if k' = k then some v' else mapLookup rest k

/-- `make(map...)` followed by `for k, v := range es { m[k] = f(v) }`. -/
def foldAssign {β : Type} (es : List (String × β)) : List (String × β) :=
  es.foldl (fun m p => mapAssign m p.1 p.2) []

/-- The scanner-config decoder-map construction: nil map stays nil; otherwise
`make` a fresh map and assign `name ↦ node.Decode` for each entry. -/
def scannerDecoderMap (m : Option (List (String × Node))) :
    Option (List (String × DecodeClosure)) :=
  match m with
  | none => none
  | some es => some (foldAssign (es.map fun p => (p.1, p.2.decodeClosure)))

/-- Go map read on a possibly-nil decoder map (reading a nil map yields the zero
value, i.e. no decoder). -/
def decoderLookup (m : Option (List (String × DecodeClosure))) (name : String) :
    Option DecodeClosure :=
  match m with
  | none => none
  | some es => mapLookup es name

/-- `libindex.Opts.ScannerConfig`. -/
structure ScannerConfigOpts where
  package : Option (List (String × DecodeClosure))
  dist : Option (List (String × DecodeClosure))
  repo : Option (List (String × DecodeClosure))
deriving DecidableEq, Repr

/-- `libindex.Opts`. -/
structure LibindexOpts where
  connString : String
  scanLockRetry : Int
  layerScanConcurrency : Int
  migrations : Bool
  airgap : Bool
  scannerConfig : ScannerConfigOpts
deriving DecidableEq, Repr

/-- `libvuln.Opts`. -/
structure LibvulnOpts where
  maxConnPool : Int
  connString : String
  migrations : Bool
  updaterSets : List String
  updateInterval : Int
  updaterConfigs : List (String × DecodeClosure)
  updateRetention : Int
deriving DecidableEq, Repr

/-- Two's-complement wrap of Go's `int32(...)` conversion. -/
def toInt32 (n : Int) : Int := (n + 2 ^ 31) % 2 ^ 32 - 2 ^ 31

/-- Two's-complement wrap of Go's int64 arithmetic (`time.Duration`). -/
def toInt64 (n : Int) : Int := (n + 2 ^ 63) % 2 ^ 64 - 2 ^ 63

/-- The `libindex.Opts` value built in the ComboMode and IndexerMode branches
(the source repeats this block verbatim in both). -/
def indexerOpts (conf : Config) : LibindexOpts :=
  { connString := conf.indexer.connString
    scanLockRetry := toInt64 (conf.indexer.scanLockRetry * 1000000000)
    layerScanConcurrency := conf.indexer.layerScanConcurrency
    migrations := conf.indexer.migrations
    airgap := conf.indexer.airgap
    scannerConfig :=
      { package := scannerDecoderMap conf.indexer.scanner.package
        dist := scannerDecoderMap conf.indexer.scanner.dist
        repo := scannerDecoderMap conf.indexer.scanner.repo } }

/-- The `updaterConfigs` map built in the ComboMode and MatcherMode branches. -/
def updaterConfigsOf (conf : Config) : List (String × DecodeClosure) :=
  foldAssign (conf.updaters.config.map fun p => (p.1, p.2.decodeClosure))

/-- The `libvuln.Opts` value built in the ComboMode and MatcherMode branches. -/
def libvulnOpts (conf : Config) : LibvulnOpts :=
  { maxConnPool := toInt32 conf.matcher.maxConnPool
    connString := conf.matcher.connString
    migrations := conf.matcher.migrations
    updaterSets := conf.updaters.sets
    updateInterval := conf.matcher.period
    updaterConfigs := updaterConfigsOf conf
    updateRetention := conf.matcher.updateRetention }

/-- An Indexer handle stored in `i.Indexer`: local (`*libindex.Libindex`) or
remote (`*client.HTTP`). -/
inductive IndexerHandle where
  | lcl (t : Nat)
  | rmt (t : Nat)
deriving DecidableEq, Repr

/-- A Matcher handle stored in `i.Matcher`: local (`*libvuln.Libvuln`) or
remote (`*client.HTTP`). -/
inductive MatcherHandle where
  | lcl (t : Nat)
  | rmt (t : Nat)
deriving DecidableEq, Repr

/-- `notifier.Opts`. -/
structure NotifierOpts where
  deliveryInterval : Int
  connString : String
  indexer : IndexerHandle
  matcher : MatcherHandle
  client : Nat
  migrations : Bool
  pollInterval : Int
  disableSummary : Bool
  webhook : Option Nat
  amqp : Option Nat
  stomp : Option Nat
deriving DecidableEq, Repr

/-- An error value returned by an external collaborator; `msg` is its
`Error()` string. -/
structure ExtErr where
  msg : String
deriving DecidableEq, Repr

/-- The errors `Services` can return: a collaborator's error propagated
unchanged (`return err`), a `clairerror.ErrNotInitialized`, or a
`fmt.Errorf`. -/
inductive SvcErr where
  | ext (e : ExtErr)
  | notInitialized (msg : String)
  | errorf (msg : String)
deriving DecidableEq, Repr

/-- The external collaborators of `Services`, as fallible functions.
`clientFor claim` models `i.conf.Client(nil, claim)` and returns the client
token together with the `authed` flag. -/
structure Env where
  libindexNew : LibindexOpts → Except ExtErr Nat
  libvulnNew : LibvulnOpts → Except ExtErr Nat
  clientFor : Claim → Except ExtErr (Nat × Bool)
  clientNewHTTP : String → Nat → Except ExtErr Nat
  notifierNew : NotifierOpts → Except ExtErr Nat

/-- One constructor call made by `Services`, with the argument it passed. -/
inductive Call where
  | libindexNew (opts : LibindexOpts)
  | libvulnNew (opts : LibvulnOpts)
  | clientBuild (c : Claim)
  | clientNewHTTP (addr : String) (c : Nat)
  | notifierNew (opts : NotifierOpts)
deriving DecidableEq, Repr

/-- One field write performed by `Services` on the `Init` receiver. -/
inductive FieldWrite where
  | indexer (v : Option IndexerHandle)
  | matcher (v : Option MatcherHandle)
  | notifier (v : Option Nat)
deriving DecidableEq, Repr

/-- The observable outcome of one `Services` call: constructor calls in order,
field writes in order, and the returned error (`none` = `nil`). -/
structure ServicesResult where
  calls : List Call
  writes : List FieldWrite
  err : Option SvcErr
deriving Repr

/-- The three handle fields of the `Init` receiver. -/
structure Handles where
  indexer : Option IndexerHandle
  matcher : Option MatcherHandle
  notifier : Option Nat
deriving DecidableEq, Repr

/-- Apply one field write to the receiver's handle fields. -/
def applyWrite (s : Handles) : FieldWrite → Handles
  | .indexer v => { s with indexer := v }
  | .matcher v => { s with matcher := v }
  | .notifier v => { s with notifier := v }

/-- Apply a write sequence, in order, to the receiver's handle fields. -/
def applyWrites (s : Handles) (ws : List FieldWrite) : Handles :=
  ws.foldl applyWrite s

/-- `Init.Services`: mode dispatch, per-mode construction and authentication
gating, translated branch by branch from the source. -/
def Services (conf : Config) (env : Env) : ServicesResult :=
  match conf.mode with
  | .combo =>
    -- configure two local services via claircore libraries
    match env.libindexNew (indexerOpts conf) with
    | .error e =>
        { calls := [.libindexNew (indexerOpts conf)], writes := [],
          err := some (.notInitialized ("failed to initialize libindex: " ++ e.msg)) }
    | .ok libI =>
      match env.libvulnNew (libvulnOpts conf) with
      | .error e =>
          { calls := [.libindexNew (indexerOpts conf), .libvulnNew (libvulnOpts conf)],
            writes := [],
            err := some (.errorf ("failed to initialize libvuln: " ++ e.msg)) }
      | .ok libV =>
        match env.clientFor notifierClaim with
        | .error e =>
            { calls := [.libindexNew (indexerOpts conf), .libvulnNew (libvulnOpts conf),
                        .clientBuild notifierClaim],
              writes := [], err := some (.ext e) }
        | .ok (c, _authed) =>
          -- the authed flag of the notifier-claim client is discarded
          let nopts : NotifierOpts :=
            { deliveryInterval := conf.notifier.deliveryInterval
              connString := conf.notifier.connString
              indexer := .lcl libI
              matcher := .lcl libV
              client := c
              migrations := conf.notifier.migrations
              pollInterval := conf.notifier.pollInterval
              disableSummary := conf.notifier.disableSummary
              webhook := conf.notifier.webhook
              amqp := conf.notifier.amqp
              stomp := conf.notifier.stomp }
          match env.notifierNew nopts with
          | .error e =>
              { calls := [.libindexNew (indexerOpts conf), .libvulnNew (libvulnOpts conf),
                          .clientBuild notifierClaim, .notifierNew nopts],
                writes := [],
                err := some (.notInitialized ("notifier failed to initialize: " ++ e.msg)) }
          | .ok n =>
              { calls := [.libindexNew (indexerOpts conf), .libvulnNew (libvulnOpts conf),
                          .clientBuild notifierClaim, .notifierNew nopts],
                writes := [.indexer (some (.lcl libI)), .matcher (some (.lcl libV)),
                           .notifier (some n)],
                err := none }
  | .indexer =>
    -- configure just a local indexer
    match env.libindexNew (indexerOpts conf) with
    | .error e =>
        { calls := [.libindexNew (indexerOpts conf)], writes := [],
          err := some (.notInitialized ("failed to initialize libindex: " ++ e.msg)) }
    | .ok libI =>
        { calls := [.libindexNew (indexerOpts conf)],
          writes := [.indexer (some (.lcl libI)), .matcher none],
          err := none }
  | .matcher =>
    -- configure a local matcher but a remote indexer
    match env.libvulnNew (libvulnOpts conf) with
    | .error e =>
        { calls := [.libvulnNew (libvulnOpts conf)], writes := [],
          err := some (.errorf ("failed to initialize libvuln: " ++ e.msg)) }
    | .ok libV =>
      -- matcher mode needs a remote indexer client
      match env.clientFor intraserviceClaim with
      | .error e =>
          { calls := [.libvulnNew (libvulnOpts conf), .clientBuild intraserviceClaim],
            writes := [], err := some (.ext e) }
      | .ok (c, authed) =>
        if !authed && conf.authAny then
          { calls := [.libvulnNew (libvulnOpts conf), .clientBuild intraserviceClaim],
            writes := [],
            err := some (.notInitialized "client authorization required but not provided") }
        else
          match env.clientNewHTTP conf.matcher.indexerAddr c with
          | .error e =>
              { calls := [.libvulnNew (libvulnOpts conf), .clientBuild intraserviceClaim,
                          .clientNewHTTP conf.matcher.indexerAddr c],
                writes := [], err := some (.ext e) }
          | .ok remoteIndexer =>
              { calls := [.libvulnNew (libvulnOpts conf), .clientBuild intraserviceClaim,
                          .clientNewHTTP conf.matcher.indexerAddr c],
                writes := [.indexer (some (.rmt remoteIndexer)), .matcher (some (.lcl libV))],
                err := none }
  | .notifier =>
    -- notifier uses a remote indexer and matcher
    match env.clientFor intraserviceClaim with
    | .error e =>
        { calls := [.clientBuild intraserviceClaim], writes := [], err := some (.ext e) }
    | .ok (c, authed) =>
      if !authed && conf.authAny then
        { calls := [.clientBuild intraserviceClaim], writes := [],
          err := some (.notInitialized "client authorization required but not provided") }
      else
        match env.clientNewHTTP conf.notifier.indexerAddr c with
        | .error e =>
            { calls := [.clientBuild intraserviceClaim,
                        .clientNewHTTP conf.notifier.indexerAddr c],
              writes := [], err := some (.ext e) }
        | .ok remoteIndexer =>
          match env.clientNewHTTP conf.notifier.matcherAddr c with
          | .error e =>
              { calls := [.clientBuild intraserviceClaim,
                          .clientNewHTTP conf.notifier.indexerAddr c,
                          .clientNewHTTP conf.notifier.matcherAddr c],
                writes := [], err := some (.ext e) }
          | .ok remoteMatcher =>
            match env.clientFor notifierClaim with
            | .error e =>
                { calls := [.clientBuild intraserviceClaim,
                            .clientNewHTTP conf.notifier.indexerAddr c,
                            .clientNewHTTP conf.notifier.matcherAddr c,
                            .clientBuild notifierClaim],
                  writes := [], err := some (.ext e) }
            | .ok (c2, _authed2) =>
              -- the authed flag of the notifier-claim client is discarded here too;
              -- DisableSummary is absent from this options literal in the source,
              -- so it carries the Go zero value `false`.
              let nopts : NotifierOpts :=
                { deliveryInterval := conf.notifier.deliveryInterval
                  connString := conf.notifier.connString
                  indexer := .rmt remoteIndexer
                  matcher := .rmt remoteMatcher
                  client := c2
                  migrations := conf.notifier.migrations
                  pollInterval := conf.notifier.pollInterval
                  disableSummary := false
                  webhook := conf.notifier.webhook
                  amqp := conf.notifier.amqp
                  stomp := conf.notifier.stomp }
              match env.notifierNew nopts with
              | .error e =>
                  { calls := [.clientBuild intraserviceClaim,
                              .clientNewHTTP conf.notifier.indexerAddr c,
                              .clientNewHTTP conf.notifier.matcherAddr c,
                              .clientBuild notifierClaim, .notifierNew nopts],
                    writes := [],
                    err := some (.notInitialized ("notifier failed to initialize: " ++ e.msg)) }
              | .ok n =>
                  { calls := [.clientBuild intraserviceClaim,
                              .clientNewHTTP conf.notifier.indexerAddr c,
                              .clientNewHTTP conf.notifier.matcherAddr c,
                              .clientBuild notifierClaim, .notifierNew nopts],
                    writes := [.indexer (some (.rmt remoteIndexer)),
                               .matcher (some (.rmt remoteMatcher)),
                               .notifier (some n)],
                    err := none }
  | .unknown s =>
      { calls := [], writes := [],
        err := some (.errorf ("could not determine passed in mode: " ++ s)) }

end Clair

namespace Clair

/-! ## The build-time OpenAPI document generator (`openapigen.go`)

The input document is the decoded YAML tree (`map[interface{}]interface{}` at
the root, nested maps, slices and scalars below).  A Go map is unordered; it is
modelled as an association list whose order is the (arbitrary) iteration order
of one run, and `Json.obj` — the model of a `map[string]interface{}` about to
be marshalled — is kept in the canonical key-sorted form that `json.Marshal`
emits, since key order inside a Go map is unobservable. -/

/-- A YAML mapping key (`interface{}` in Go); `fmt.Sprint` renders it. -/
inductive YKey where
  | str (s : String)
  | num (n : Int)
deriving DecidableEq, Repr

/-- `fmt.Sprint` of a mapping key. -/
def YKey.render : YKey → String
  | .str s => s
  | .num n => toString n

/-- A decoded YAML value (`interface{}` holding scalars, slices and maps). -/
inductive Yaml where
  | str (s : String)
  | num (n : Int)
  | boolv (b : Bool)
  | null
  | arr (xs : List Yaml)
  | map (es : List (YKey × Yaml))
deriving Repr

/-- A JSON value as produced by `convert`: mapping keys are strings, and object
fields are in the canonical key-sorted order `json.Marshal` emits. -/
inductive Json where
  | str (s : String)
  | num (n : Int)
  | boolv (b : Bool)
  | null
  | arr (xs : List Json)
  | obj (fs : List (String × Json))
deriving Repr

instance decKeyLE : DecidableRel fun (a b : String × Json) => a.1 ≤ b.1 :=
  fun a b => inferInstanceAs (Decidable (a.1 ≤ b.1))

/-- Sort object fields by key, as `json.Marshal` does for a Go map. -/
def sortFields (fs : List (String × Json)) : List (String × Json) :=
  List.insertionSort (fun a b => a.1 ≤ b.1) fs

mutual
/-- `convert`: recursively turn the decoded YAML tree into a JSON value,
rendering every mapping key with `fmt.Sprint`.  A converted mapping is a Go
`map[string]interface{}` built by assignment; it is stored here key-sorted,
the canonical form of an unordered Go map under `json.Marshal`. -/
def convert : Yaml → Json
  | .str s => .str s
  | .num n => .num n
  | .boolv b => .boolv b
  | .null => .null
  | .arr xs => .arr (convertList xs)
  | .map es =>
      .obj (sortFields ((convertEntries es).foldl (fun m p => mapAssign m p.1 p.2) []))

/-- `convert` mapped over the elements of a YAML sequence. -/
def convertList : List Yaml → List Json
  | [] => []
  | x :: xs => convert x :: convertList xs

/-- The `(fmt.Sprint k, convert v)` pairs of a YAML mapping, in iteration
order. -/
def convertEntries : List (YKey × Yaml) → List (String × Json)
  | [] => []
  | (k, v) :: es => (k.render, convert v) :: convertEntries es
end

/-- Lowercase hexadecimal digit. -/
def hexDigit (n : Nat) : Char :=
  if n < 10 then Char.ofNat (48 + n) else Char.ofNat (87 + n)

/-- JSON string escaping as `encoding/json` performs it (with its default HTML
escaping of angle brackets and ampersands). -/
def jsonEscapeChar (c : Char) : String :=
  if c = '"' then "\\\""
  else if c = '\\' then "\\\\"
  else if c = '\n' then "\\n"
  else if c = '\r' then "\\r"
  else if c = '\t' then "\\t"
  else if c.toNat < 32 then
    "\\u00" ++ String.mk [hexDigit (c.toNat / 16), hexDigit (c.toNat % 16)]
  else if c = '<' then "\\u003c"
  else if c = '>' then "\\u003e"
  else if c = '&' then "\\u0026"
  else if c.toNat = 0x2028 then "\\u2028"
  else if c.toNat = 0x2029 then "\\u2029"
  else String.mk [c]

/-- A JSON string literal. -/
def jsonQuote (s : String) : String :=
  "\"" ++ String.join (s.data.map jsonEscapeChar) ++ "\""

mutual
/-- `json.Marshal` on a converted value. -/
def marshal : Json → String
  | .str s => jsonQuote s
  | .num n => toString n
  | .boolv b => if b then "true" else "false"
  | .null => "null"
  | .arr xs => "[" ++ marshalList xs ++ "]"
  | .obj fs => "\x7b" ++ marshalFields fs ++ "\x7d"

/-- Comma-joined marshalling of array elements. -/
def marshalList : List Json → String
  | [] => ""
  | [x] => marshal x
  | x :: y :: xs => marshal x ++ "," ++ marshalList (y :: xs)

/-- Comma-joined marshalling of object fields. -/
def marshalFields : List (String × Json) → String
  | [] => ""
  | [(k, v)] => jsonQuote k ++ ":" ++ marshal v
  | (k, v) :: f :: fs => jsonQuote k ++ ":" ++ marshal v ++ "," ++ marshalFields (f :: fs)
end

/-- UTF-8 encoding of one code point. -/
def utf8Bytes (c : Char) : List Nat :=
  let n := c.toNat
  if n < 0x80 then [n]
  else if n < 0x800 then [0xc0 + n / 64, 0x80 + n % 64]
  else if n < 0x10000 then [0xe0 + n / 4096, 0x80 + n / 64 % 64, 0x80 + n % 64]
  else [0xf0 + n / 262144, 0x80 + n / 4096 % 64, 0x80 + n / 64 % 64, 0x80 + n % 64]

/-- The UTF-8 bytes of a string (`[]byte(s)` in Go). -/
def strBytes (s : String) : List Nat :=
  s.data.foldr (fun c acc => utf8Bytes c ++ acc) []

/-! SHA-256 (`crypto/sha256.Sum256`), on byte lists, 32-bit words as `Nat`
reduced mod `2 ^ 32`. -/

/-- Right rotation of a 32-bit word. -/
def rotr32 (w n : Nat) : Nat := ((n >>> w) ||| (n <<< (32 - w))) % 2 ^ 32

/-- The SHA-256 round constants (decimal). -/
def sha256K : List Nat :=
  [1116352408, 1899447441, 3049323471, 3921009573, 961987163,
   1508970993, 2453635748, 2870763221, 3624381080, 310598401,
   607225278, 1426881987, 1925078388, 2162078206, 2614888103,
   3248222580, 3835390401, 4022224774, 264347078, 604807628,
   770255983, 1249150122, 1555081692, 1996064986, 2554220882,
   2821834349, 2952996808, 3210313671, 3336571891, 3584528711,
   113926993, 338241895, 666307205, 773529912, 1294757372,
   1396182291, 1695183700, 1986661051, 2177026350, 2456956037,
   2730485921, 2820302411, 3259730800, 3345764771, 3516065817,
   3600352804, 4094571909, 275423344, 430227734, 506948616,
   659060556, 883997877, 958139571, 1322822218, 1537002063,
   1747873779, 1955562222, 2024104815, 2227730452, 2361852424,
   2428436474, 2756734187, 3204031479, 3329325298]

/-- The SHA-256 initial hash value (decimal). -/
def sha256H0 : List Nat :=
  [1779033703, 3144134277, 1013904242, 2773480762,
   1359893119, 2600822924, 528734635, 1541459225]

/-- Merkle–Damgård padding: append `0x80`, zeros, and the 64-bit big-endian
bit length, to a multiple of 64 bytes. -/
def shaPad (msg : List Nat) : List Nat :=
  let len := msg.length
  let zeros := (64 + 56 - (len + 1) % 64) % 64
  let bitLen := len * 8
  msg ++ 0x80 :: List.replicate zeros 0 ++
    [bitLen / 2 ^ 56 % 256, bitLen / 2 ^ 48 % 256, bitLen / 2 ^ 40 % 256,
     bitLen / 2 ^ 32 % 256, bitLen / 2 ^ 24 % 256, bitLen / 2 ^ 16 % 256,
     bitLen / 2 ^ 8 % 256, bitLen % 256]

/-- Big-endian 32-bit words from bytes. -/
def bytesToWords : List Nat → List Nat
  | a :: b :: c :: d :: rest => (a * 2 ^ 24 + b * 2 ^ 16 + c * 2 ^ 8 + d) :: bytesToWords rest
  | _ => []

/-- 16-word blocks from the padded word stream. -/
def toBlocks : List Nat → List (List Nat)
  | w0 :: w1 :: w2 :: w3 :: w4 :: w5 :: w6 :: w7 ::
    w8 :: w9 :: w10 :: w11 :: w12 :: w13 :: w14 :: w15 :: rest =>
      [w0, w1, w2, w3, w4, w5, w6, w7, w8, w9, w10, w11, w12, w13, w14, w15] ::
        toBlocks rest
  | _ => []

/-- The next message-schedule word from the 16 most recent ones (`rws` holds
the schedule so far, newest first). -/
def nextW (rws : List Nat) : Nat :=
  let w2 := rws.getD 1 0
  let w7 := rws.getD 6 0
  let w15 := rws.getD 14 0
  let w16 := rws.getD 15 0
  let s0 := (rotr32 7 w15) ^^^ (rotr32 18 w15) ^^^ (w15 >>> 3)
  let s1 := (rotr32 17 w2) ^^^ (rotr32 19 w2) ^^^ (w2 >>> 10)
  (w16 + s0 + w7 + s1) % 2 ^ 32

/-- Extend the reversed schedule by `fuel` words. -/
def extendW : Nat → List Nat → List Nat
  | 0, rws => rws
  | fuel + 1, rws => extendW fuel (nextW rws :: rws)

/-- The 64-word message schedule of one block. -/
def schedule (block : List Nat) : List Nat :=
  (extendW 48 block.reverse).reverse

/-- One SHA-256 round. -/
def sha256Round (st : List Nat) (kw : Nat × Nat) : List Nat :=
  match st with
  | [a, b, c, d, e, f, g, h] =>
    let S1 := (rotr32 6 e) ^^^ (rotr32 11 e) ^^^ (rotr32 25 e)
    let ch := (e &&& f) ^^^ ((2 ^ 32 - 1 - e) &&& g)
    let t1 := (h + S1 + ch + kw.1 + kw.2) % 2 ^ 32
    let S0 := (rotr32 2 a) ^^^ (rotr32 13 a) ^^^ (rotr32 22 a)
    let mj := (a &&& b) ^^^ (a &&& c) ^^^ (b &&& c)
    let t2 := (S0 + mj) % 2 ^ 32
    [(t1 + t2) % 2 ^ 32, a, b, c, (d + t1) % 2 ^ 32, e, f, g]
  | st => st

/-- The SHA-256 compression function on one block. -/
def sha256Compress (hs : List Nat) (block : List Nat) : List Nat :=
  let w := schedule block
  let st := (sha256K.zip w).foldl sha256Round hs
  (hs.zip st).map fun p => (p.1 + p.2) % 2 ^ 32

/-- Big-endian bytes of the eight hash words. -/
def wordsToBytes : List Nat → List Nat
  | [] => []
  | w :: ws => w / 2 ^ 24 % 256 :: w / 2 ^ 16 % 256 :: w / 2 ^ 8 % 256 :: w % 256 ::
      wordsToBytes ws

/-- `sha256.Sum256`: the 32-byte digest of a byte message. -/
def sha256 (msg : List Nat) : List Nat :=
  wordsToBytes ((toBlocks (bytesToWords (shaPad msg))).foldl sha256Compress sha256H0)

/-- `%x`: lowercase hexadecimal rendering of bytes. -/
def hexStr (bs : List Nat) : String :=
  String.join (bs.map fun b => String.mk [hexDigit (b / 16), hexDigit (b % 16)])

/-- The values of the two constants `main` writes into the generated source
file: `_openapiJSON` (the marshalled document; the `%#q` directive quotes it as
a Go literal without changing its value) and `_openapiJSONEtag` (a Go raw
literal whose value is the double-quoted hex digest). -/
structure GenOut where
  openapiJSON : String
  openapiJSONEtag : String
deriving DecidableEq, Repr

/-- `main`'s computation: marshal the converted document, hash the marshalled
bytes, and emit the JSON constant plus the quoted digest. -/
def openapigen (doc : Yaml) : GenOut :=
  let embed := marshal (convert doc)
  let ck := sha256 (strBytes embed)
  { openapiJSON := embed, openapiJSONEtag := "\"" ++ hexStr ck ++ "\"" }

end Clair

namespace Clair

/-! ## Specification-side definitions and concrete sample inputs -/

/-- The zero value of the three handle fields of a freshly allocated `Init`. -/
def initHandles : Handles := ⟨none, none, none⟩

/-- The presence/absence (and local/remote) pattern of the three handles that
the §4.1 mode-to-topology table prescribes for each mode. -/
def patternHolds : Mode → Handles → Prop
  | .combo, h =>
      (∃ t, h.indexer = some (.lcl t)) ∧ (∃ t, h.matcher = some (.lcl t)) ∧
        (∃ t, h.notifier = some t)
  | .indexer, h =>
      (∃ t, h.indexer = some (.lcl t)) ∧ h.matcher = none ∧ h.notifier = none
  | .matcher, h =>
      (∃ t, h.indexer = some (.rmt t)) ∧ (∃ t, h.matcher = some (.lcl t)) ∧
        h.notifier = none
  | .notifier, h =>
      (∃ t, h.indexer = some (.rmt t)) ∧ (∃ t, h.matcher = some (.rmt t)) ∧
        (∃ t, h.notifier = some t)
  | .unknown _, _ => False

/-- A concrete configuration used to instantiate the theorems. -/
def sampleConf : Config :=
  { mode := .combo
    indexer :=
      { connString := "indexer-conn", scanLockRetry := 1, layerScanConcurrency := 2,
        migrations := true, airgap := false,
        scanner := { package := some [("gobin", ⟨1⟩)], dist := none, repo := some [] } }
    matcher :=
      { maxConnPool := 10, connString := "matcher-conn", migrations := true, period := 5,
        updateRetention := 2, indexerAddr := "http://indexer" }
    notifier :=
      { deliveryInterval := 3, connString := "notifier-conn", migrations := true,
        pollInterval := 4, disableSummary := true, webhook := some 1, amqp := none,
        stomp := none, indexerAddr := "http://indexer", matcherAddr := "http://matcher" }
    updaters := { config := [("osv", ⟨2⟩)], sets := ["defaults"] }
    authAny := true }

/-- The sample configuration with the mode replaced. -/
def withMode (m : Mode) : Config := { sampleConf with mode := m }

/-- An environment in which every collaborator succeeds and every client is
authenticated. -/
def okEnv : Env :=
  { libindexNew := fun _ => .ok 11
    libvulnNew := fun _ => .ok 12
    clientFor := fun _ => .ok (13, true)
    clientNewHTTP := fun _ _ => .ok 14
    notifierNew := fun _ => .ok 15 }

/-- An environment whose transport factory succeeds but reports every client
as unauthenticated. -/
def unauthEnv : Env := { okEnv with clientFor := fun _ => .ok (13, false) }

/-- An environment in which claim signing fails outright. -/
def signFailEnv : Env := { okEnv with clientFor := fun _ => .error ⟨"sign"⟩ }

/-- An environment in which the intra-service client comes back authenticated
but the notifier-claim client comes back unauthenticated. -/
def notifierUnauthEnv : Env :=
  { okEnv with
    clientFor := fun cl =>
      if cl = intraserviceClaim then .ok (13, true) else .ok (16, false) }

/-- An environment in which both the local matcher construction and claim
signing fail, to observe which failure `Services` reports. -/
def vulnAndSignFailEnv : Env :=
  { okEnv with
    libvulnNew := fun _ => .error ⟨"vuln-boom"⟩
    clientFor := fun _ => .error ⟨"sign"⟩ }

/-! `YEquiv`: two decoded YAML trees denote the same Go value.  Go maps are
unordered, so a mapping's entry list may be permuted at every nesting level
(after pointwise equivalence of the entry values), while scalars and slice
element order are preserved. -/
mutual
inductive YEquiv : Yaml → Yaml → Prop
  | str (s : String) : YEquiv (.str s) (.str s)
  | num (n : Int) : YEquiv (.num n) (.num n)
  | boolv (b : Bool) : YEquiv (.boolv b) (.boolv b)
  | null : YEquiv .null .null
  | arr {xs ys : List Yaml} : YEquivList xs ys → YEquiv (.arr xs) (.arr ys)
  | map {es fs : List (YKey × Yaml)} (gs : List (YKey × Yaml)) :
      YEquivEntries es gs → gs.Perm fs → YEquiv (.map es) (.map fs)

inductive YEquivList : List Yaml → List Yaml → Prop
  | nil : YEquivList [] []
  | cons {x y : Yaml} {xs ys : List Yaml} :
      YEquiv x y → YEquivList xs ys → YEquivList (x :: xs) (y :: ys)

inductive YEquivEntries : List (YKey × Yaml) → List (YKey × Yaml) → Prop
  | nil : YEquivEntries [] []
  | cons {k : YKey} {v w : Yaml} {es fs : List (YKey × Yaml)} :
      YEquiv v w → YEquivEntries es fs → YEquivEntries ((k, v) :: es) ((k, w) :: fs)
end

/-! `NodupKeys`: no mapping anywhere in the tree has two keys with the same
`fmt.Sprint` rendering (on such documents map assignment never collides). -/
mutual
inductive NodupKeys : Yaml → Prop
  | str (s : String) : NodupKeys (.str s)
  | num (n : Int) : NodupKeys (.num n)
  | boolv (b : Bool) : NodupKeys (.boolv b)
  | null : NodupKeys .null
  | arr {xs : List Yaml} : NodupKeysList xs → NodupKeys (.arr xs)
  | map {es : List (YKey × Yaml)} :
      (es.map fun p => p.1.render).Nodup → NodupKeysEntries es → NodupKeys (.map es)

inductive NodupKeysList : List Yaml → Prop
  | nil : NodupKeysList []
  | cons {x : Yaml} {xs : List Yaml} :
      NodupKeys x → NodupKeysList xs → NodupKeysList (x :: xs)

inductive NodupKeysEntries : List (YKey × Yaml) → Prop
  | nil : NodupKeysEntries []
  | cons {k : YKey} {v : Yaml} {es : List (YKey × Yaml)} :
      NodupKeys v → NodupKeysEntries es → NodupKeysEntries ((k, v) :: es)
end

/-! ## Helper lemmas -/

theorem mapAssign_of_not_mem {β : Type} (m : List (String × β)) (k : String) (v : β)
    (h : k ∉ m.map Prod.fst) : mapAssign m k v = m ++ [(k, v)] := by
  induction m with
  | nil => rfl
  | cons p rest ih =>
    obtain ⟨k', v'⟩ := p
    simp only [List.map_cons, List.mem_cons] at h
    push_neg at h
    simp only [mapAssign, if_neg (Ne.symm h.1), List.cons_append, ih h.2]

theorem foldl_assign_of_disjoint {β : Type} :
    ∀ (l m : List (String × β)), (l.map Prod.fst).Nodup →
      (∀ k ∈ l.map Prod.fst, k ∉ m.map Prod.fst) →
      l.foldl (fun m p => mapAssign m p.1 p.2) m = m ++ l := by
  intro l
  induction l with
  | nil => intro m _ _; simp
  | cons p rest ih =>
    intro m hn hd
    simp only [List.map_cons, List.nodup_cons] at hn
    simp only [List.foldl_cons]
    rw [mapAssign_of_not_mem m p.1 p.2 (hd p.1 (by simp))]
    rw [ih (m ++ [(p.1, p.2)]) hn.2]
    · simp
    · intro k hk
      simp only [List.map_append, List.mem_append]
      push_neg
      refine ⟨hd k (by simp [hk]), ?_⟩
      simp only [List.map_cons, List.map_nil, List.mem_singleton]
      intro hkp
      exact hn.1 (hkp ▸ hk)

theorem foldAssign_eq_self {β : Type} (l : List (String × β))
    (h : (l.map Prod.fst).Nodup) : foldAssign l = l := by
  have := foldl_assign_of_disjoint l [] h (by simp)
  simpa [foldAssign] using this

theorem mapLookup_map_value {β γ : Type} (f : β → γ) :
    ∀ (l : List (String × β)) (k : String),
      mapLookup (l.map fun p => (p.1, f p.2)) k = (mapLookup l k).map f := by
  intro l
  induction l with
  | nil => intro k; rfl
  | cons p rest ih =>
    intro k
    simp only [List.map_cons, mapLookup]
    split <;> simp [ih]

instance keyLETrans : IsTrans (String × Json) (fun a b => a.1 ≤ b.1) :=
  ⟨fun _ _ _ h h2 => le_trans h h2⟩

instance keyLETotal : IsTotal (String × Json) (fun a b => a.1 ≤ b.1) :=
  ⟨fun a b => le_total a.1 b.1⟩

instance keyLTAntisymm : IsAntisymm (String × Json) (fun a b => a.1 < b.1) :=
  ⟨fun _ _ h h2 => absurd h2 (not_lt_of_lt h)⟩

theorem pairwise_and_of {α : Type} {R S : α → α → Prop} :
    ∀ {l : List α}, l.Pairwise R → l.Pairwise S →
      l.Pairwise fun a b => R a b ∧ S a b := by
  intro l
  induction l with
  | nil => intro _ _; exact List.Pairwise.nil
  | cons x xs ih =>
    intro hr hs
    rcases List.pairwise_cons.mp hr with ⟨hr1, hr2⟩
    rcases List.pairwise_cons.mp hs with ⟨hs1, hs2⟩
    exact List.pairwise_cons.mpr ⟨fun a ha => ⟨hr1 a ha, hs1 a ha⟩, ih hr2 hs2⟩

theorem sortFields_perm_eq (l₁ l₂ : List (String × Json)) (hp : l₁.Perm l₂)
    (hn : (l₁.map Prod.fst).Nodup) : sortFields l₁ = sortFields l₂ := by
  have p₁ : (sortFields l₁).Perm l₁ := List.perm_insertionSort _ l₁
  have p₂ : (sortFields l₂).Perm l₂ := List.perm_insertionSort _ l₂
  have pp : (sortFields l₁).Perm (sortFields l₂) := (p₁.trans hp).trans p₂.symm
  have s₁ : (sortFields l₁).Sorted fun a b => a.1 ≤ b.1 :=
    List.sorted_insertionSort _ l₁
  have s₂ : (sortFields l₂).Sorted fun a b => a.1 ≤ b.1 :=
    List.sorted_insertionSort _ l₂
  have hn₁ : ((sortFields l₁).map Prod.fst).Nodup :=
    (p₁.map Prod.fst).nodup_iff.mpr hn
  have hn₂ : ((sortFields l₂).map Prod.fst).Nodup :=
    ((pp.symm.trans p₁).map Prod.fst).nodup_iff.mpr hn
  have ne₁ : (sortFields l₁).Pairwise fun a b => a.1 ≠ b.1 :=
    (List.pairwise_map.mp hn₁)
  have ne₂ : (sortFields l₂).Pairwise fun a b => a.1 ≠ b.1 :=
    (List.pairwise_map.mp hn₂)
  have st₁ : (sortFields l₁).Pairwise fun a b => a.1 < b.1 :=
    (pairwise_and_of s₁ ne₁).imp fun h => lt_of_le_of_ne h.1 h.2
  have st₂ : (sortFields l₂).Pairwise fun a b => a.1 < b.1 :=
    (pairwise_and_of s₂ ne₂).imp fun h => lt_of_le_of_ne h.1 h.2
  exact List.eq_of_perm_of_sorted pp st₁ st₂

theorem convertEntries_eq_map :
    ∀ es : List (YKey × Yaml),
      convertEntries es = es.map fun p => (p.1.render, convert p.2) := by
  intro es
  induction es with
  | nil => rfl
  | cons p rest ih => cases p; simp [convertEntries, ih]

mutual
theorem yequiv_refl : ∀ d : Yaml, YEquiv d d
  | .str s => .str s
  | .num n => .num n
  | .boolv b => .boolv b
  | .null => .null
  | .arr xs => .arr (yequivList_refl xs)
  | .map es => .map es (yequivEntries_refl es) (List.Perm.refl es)

theorem yequivList_refl : ∀ xs : List Yaml, YEquivList xs xs
  | [] => .nil
  | x :: xs => .cons (yequiv_refl x) (yequivList_refl xs)

theorem yequivEntries_refl : ∀ es : List (YKey × Yaml), YEquivEntries es es
  | [] => .nil
  | (_, v) :: es => .cons (yequiv_refl v) (yequivEntries_refl es)
end

theorem convertEntries_keys (es : List (YKey × Yaml)) :
    (convertEntries es).map Prod.fst = es.map fun p => p.1.render := by
  rw [convertEntries_eq_map]
  simp [List.map_map, Function.comp_def]

mutual
theorem convert_equiv : ∀ {d₁ d₂ : Yaml}, YEquiv d₁ d₂ → NodupKeys d₁ →
    convert d₁ = convert d₂
  | _, _, .str s, _ => rfl
  | _, _, .num n, _ => rfl
  | _, _, .boolv b, _ => rfl
  | _, _, .null, _ => rfl
  | _, _, .arr hxs, .arr hn => by
      simp only [convert]
      exact congrArg Json.arr (convertList_equiv hxs hn)
  | _, _, .map gs hent hperm, .map hnk hne => by
      rename_i es fs
      have step1 : convertEntries es = convertEntries gs :=
        convertEntries_equiv hent hne
      have nd₁ : ((convertEntries es).map Prod.fst).Nodup := by
        rw [convertEntries_keys]; exact hnk
      have ndg : ((convertEntries gs).map Prod.fst).Nodup := step1 ▸ nd₁
      have hp : (convertEntries gs).Perm (convertEntries fs) := by
        rw [convertEntries_eq_map, convertEntries_eq_map]
        exact hperm.map _
      have ndf : ((convertEntries fs).map Prod.fst).Nodup :=
        (hp.map Prod.fst).nodup_iff.mp ndg
      have f₁ : (convertEntries es).foldl (fun m p => mapAssign m p.1 p.2) [] =
          convertEntries es := foldAssign_eq_self _ nd₁
      have f₂ : (convertEntries fs).foldl (fun m p => mapAssign m p.1 p.2) [] =
          convertEntries fs := foldAssign_eq_self _ ndf
      simp only [convert, f₁, f₂]
      rw [step1]
      exact congrArg Json.obj (sortFields_perm_eq _ _ hp ndg)

theorem convertList_equiv : ∀ {xs ys : List Yaml}, YEquivList xs ys →
    NodupKeysList xs → convertList xs = convertList ys
  | _, _, .nil, _ => rfl
  | _, _, .cons hx hxs, .cons hn hns => by
      simp only [convertList]
      rw [convert_equiv hx hn, convertList_equiv hxs hns]

theorem convertEntries_equiv : ∀ {es fs : List (YKey × Yaml)},
    YEquivEntries es fs → NodupKeysEntries es → convertEntries es = convertEntries fs
  | _, _, .nil, _ => rfl
  | _, _, .cons hv hes, .cons hn hns => by
      simp only [convertEntries]
      rw [convert_equiv hv hn, convertEntries_equiv hes hns]
end

end Clair

namespace Clair

/-! ## Claim theorems -/

/-- C1: for every mode, when `Services` returns without error the resulting
presence/absence pattern of the three handles on a fresh `Init` matches the
§4.1 table exactly: Combined gives local Indexer, Matcher and Notifier;
IndexerOnly a local Indexer only; MatcherOnly a remote Indexer and a local
Matcher; NotifierOnly a remote Indexer, a remote Matcher and a local
Notifier. -/
theorem services_topology_pattern (conf : Config) (env : Env)
    (h : (Services conf env).err = none) :
    patternHolds conf.mode (applyWrites initHandles (Services conf env).writes) := by
  cases hm : conf.mode with
  | combo =>
    cases h1 : env.libindexNew (indexerOpts conf) with
    | error e => simp [Services, hm, h1] at h
    | ok libI =>
      cases h2 : env.libvulnNew (libvulnOpts conf) with
      | error e => simp [Services, hm, h1, h2] at h
      | ok libV =>
        cases h3 : env.clientFor notifierClaim with
        | error e => simp [Services, hm, h1, h2, h3] at h
        | ok p =>
          obtain ⟨c, au⟩ := p
          cases h4 : env.notifierNew
              { deliveryInterval := conf.notifier.deliveryInterval
                connString := conf.notifier.connString
                indexer := .lcl libI
                matcher := .lcl libV
                client := c
                migrations := conf.notifier.migrations
                pollInterval := conf.notifier.pollInterval
                disableSummary := conf.notifier.disableSummary
                webhook := conf.notifier.webhook
                amqp := conf.notifier.amqp
                stomp := conf.notifier.stomp } with
          | error e => simp [Services, hm, h1, h2, h3, h4] at h
          | ok n =>
            simp [Services, hm, h1, h2, h3, h4, patternHolds, applyWrites, applyWrite,
              initHandles]
  | indexer =>
    cases h1 : env.libindexNew (indexerOpts conf) with
    | error e => simp [Services, hm, h1] at h
    | ok libI =>
      simp [Services, hm, h1, patternHolds, applyWrites, applyWrite, initHandles]
  | matcher =>
    cases h1 : env.libvulnNew (libvulnOpts conf) with
    | error e => simp [Services, hm, h1] at h
    | ok libV =>
      cases h2 : env.clientFor intraserviceClaim with
      | error e => simp [Services, hm, h1, h2] at h
      | ok p =>
        obtain ⟨c, au⟩ := p
        by_cases hau : (!au && conf.authAny) = true
        · simp [Services, hm, h1, h2, hau] at h
        · cases h3 : env.clientNewHTTP conf.matcher.indexerAddr c with
          | error e => simp [Services, hm, h1, h2, hau, h3] at h
          | ok ri =>
            simp [Services, hm, h1, h2, hau, h3, patternHolds, applyWrites, applyWrite,
              initHandles]
  | notifier =>
    cases h1 : env.clientFor intraserviceClaim with
    | error e => simp [Services, hm, h1] at h
    | ok p =>
      obtain ⟨c, au⟩ := p
      by_cases hau : (!au && conf.authAny) = true
      · simp [Services, hm, h1, hau] at h
      · cases h2 : env.clientNewHTTP conf.notifier.indexerAddr c with
        | error e => simp [Services, hm, h1, hau, h2] at h
        | ok ri =>
          cases h3 : env.clientNewHTTP conf.notifier.matcherAddr c with
          | error e => simp [Services, hm, h1, hau, h2, h3] at h
          | ok rm =>
            cases h4 : env.clientFor notifierClaim with
            | error e => simp [Services, hm, h1, hau, h2, h3, h4] at h
            | ok p2 =>
              obtain ⟨c2, au2⟩ := p2
              cases h5 : env.notifierNew
                  { deliveryInterval := conf.notifier.deliveryInterval
                    connString := conf.notifier.connString
                    indexer := .rmt ri
                    matcher := .rmt rm
                    client := c2
                    migrations := conf.notifier.migrations
                    pollInterval := conf.notifier.pollInterval
                    disableSummary := false
                    webhook := conf.notifier.webhook
                    amqp := conf.notifier.amqp
                    stomp := conf.notifier.stomp } with
              | error e => simp [Services, hm, h1, hau, h2, h3, h4, h5] at h
              | ok n =>
                simp [Services, hm, h1, hau, h2, h3, h4, h5, patternHolds, applyWrites,
                  applyWrite, initHandles]
  | unknown s => simp [Services, hm] at h

/-- Witness for C1: the pattern theorem applied to the sample configuration in
each of the four modes, under the all-succeeding environment. -/
theorem services_topology_pattern_witness :
    ((Services (withMode .combo) okEnv).err = none ∧
      patternHolds (withMode .combo).mode
        (applyWrites initHandles (Services (withMode .combo) okEnv).writes)) ∧
    ((Services (withMode .indexer) okEnv).err = none ∧
      patternHolds (withMode .indexer).mode
        (applyWrites initHandles (Services (withMode .indexer) okEnv).writes)) ∧
    ((Services (withMode .matcher) okEnv).err = none ∧
      patternHolds (withMode .matcher).mode
        (applyWrites initHandles (Services (withMode .matcher) okEnv).writes)) ∧
    ((Services (withMode .notifier) okEnv).err = none ∧
      patternHolds (withMode .notifier).mode
        (applyWrites initHandles (Services (withMode .notifier) okEnv).writes)) :=
  ⟨⟨rfl, services_topology_pattern (withMode .combo) okEnv rfl⟩,
   ⟨rfl, services_topology_pattern (withMode .indexer) okEnv rfl⟩,
   ⟨rfl, services_topology_pattern (withMode .matcher) okEnv rfl⟩,
   ⟨rfl, services_topology_pattern (withMode .notifier) okEnv rfl⟩⟩

/-- C6: for every mode value outside the four recognized constants, `Services`
fails with a configuration error naming the unrecognized mode, makes no
constructor call and writes no handle field. -/
theorem services_unknown_mode (conf : Config) (env : Env) (s : String)
    (hm : conf.mode = .unknown s) :
    Services conf env =
      { calls := [], writes := [],
        err := some (.errorf ("could not determine passed in mode: " ++ s)) } := by
  simp [Services, hm]

/-- Witness for C6: the unknown-mode theorem at a concrete bogus mode. -/
theorem services_unknown_mode_witness :
    (withMode (.unknown "bogus")).mode = .unknown "bogus" ∧
    Services (withMode (.unknown "bogus")) okEnv =
      { calls := [], writes := [],
        err := some (.errorf ("could not determine passed in mode: " ++ "bogus")) } :=
  ⟨rfl, services_unknown_mode (withMode (.unknown "bogus")) okEnv "bogus" rfl⟩

end Clair

namespace Clair

/-- C2: in MatcherOnly mode (once the local matcher construction has been
reached and succeeded) and in NotifierOnly mode, if the intra-service-claim
client builds but reports `authed = false` while the authentication policy
mandates some method, `Services` fails with the authorization-required error
and writes no handle field; and if claim signing itself fails, `Services`
returns that error unchanged, again writing nothing. -/
theorem services_auth_required (conf : Config) (env : Env) (c t : Nat) :
    (conf.mode = .matcher → env.libvulnNew (libvulnOpts conf) = .ok t →
      ((env.clientFor intraserviceClaim = .ok (c, false) → conf.authAny = true →
        (Services conf env).err =
          some (.notInitialized "client authorization required but not provided") ∧
        (Services conf env).writes = []) ∧
      (∀ e, env.clientFor intraserviceClaim = .error e →
        (Services conf env).err = some (.ext e) ∧ (Services conf env).writes = []))) ∧
    (conf.mode = .notifier →
      ((env.clientFor intraserviceClaim = .ok (c, false) → conf.authAny = true →
        (Services conf env).err =
          some (.notInitialized "client authorization required but not provided") ∧
        (Services conf env).writes = []) ∧
      (∀ e, env.clientFor intraserviceClaim = .error e →
        (Services conf env).err = some (.ext e) ∧ (Services conf env).writes = []))) := by
  constructor
  · intro hm hv
    constructor
    · intro hc hA
      simp [Services, hm, hv, hc, hA]
    · intro e he
      simp [Services, hm, hv, he]
  · intro hm
    constructor
    · intro hc hA
      simp [Services, hm, hc, hA]
    · intro e he
      simp [Services, hm, he]

/-- Witness for C2: the gating theorem applied concretely in both modes, to an
environment whose transport factory reports `authed = false` and to one whose
claim signing fails. -/
theorem services_auth_required_witness :
    ((withMode .matcher).mode = .matcher ∧
      unauthEnv.libvulnNew (libvulnOpts (withMode .matcher)) = .ok 12 ∧
      unauthEnv.clientFor intraserviceClaim = .ok (13, false) ∧
      (withMode .matcher).authAny = true ∧
      (Services (withMode .matcher) unauthEnv).err =
        some (.notInitialized "client authorization required but not provided") ∧
      (Services (withMode .matcher) unauthEnv).writes = []) ∧
    ((withMode .notifier).mode = .notifier ∧
      signFailEnv.clientFor intraserviceClaim = .error ⟨"sign"⟩ ∧
      (Services (withMode .notifier) signFailEnv).err = some (.ext ⟨"sign"⟩) ∧
      (Services (withMode .notifier) signFailEnv).writes = []) := by
  refine ⟨⟨rfl, rfl, rfl, rfl, ?_⟩, ⟨rfl, rfl, ?_⟩⟩
  · exact ((services_auth_required (withMode .matcher) unauthEnv 13 12).1 rfl rfl).1 rfl rfl
  · exact ((services_auth_required (withMode .notifier) signFailEnv 13 12).2 rfl).2 ⟨"sign"⟩ rfl

/-- C3: whenever `Services` returns an error, no handle field has been written
(no partial topology); in particular, in Combined mode a Matcher (libvuln)
construction failure after a successful Indexer construction surfaces the
libvuln error and the already-built Indexer is not recorded in any field. -/
theorem services_error_no_writes (conf : Config) (env : Env) :
    (∀ e, (Services conf env).err = some e → (Services conf env).writes = []) ∧
    (conf.mode = .combo → ∀ t e, env.libindexNew (indexerOpts conf) = .ok t →
      env.libvulnNew (libvulnOpts conf) = .error e →
      (Services conf env).err =
        some (.errorf ("failed to initialize libvuln: " ++ e.msg)) ∧
      (Services conf env).writes = []) := by
  constructor
  · intro e he
    cases hm : conf.mode with
    | combo =>
      cases h1 : env.libindexNew (indexerOpts conf) with
      | error e1 => simp [Services, hm, h1]
      | ok libI =>
        cases h2 : env.libvulnNew (libvulnOpts conf) with
        | error e2 => simp [Services, hm, h1, h2]
        | ok libV =>
          cases h3 : env.clientFor notifierClaim with
          | error e3 => simp [Services, hm, h1, h2, h3]
          | ok p =>
            obtain ⟨c, au⟩ := p
            cases h4 : env.notifierNew
                { deliveryInterval := conf.notifier.deliveryInterval
                  connString := conf.notifier.connString
                  indexer := .lcl libI
                  matcher := .lcl libV
                  client := c
                  migrations := conf.notifier.migrations
                  pollInterval := conf.notifier.pollInterval
                  disableSummary := conf.notifier.disableSummary
                  webhook := conf.notifier.webhook
                  amqp := conf.notifier.amqp
                  stomp := conf.notifier.stomp } with
            | error e4 => simp [Services, hm, h1, h2, h3, h4]
            | ok n => simp [Services, hm, h1, h2, h3, h4] at he
    | indexer =>
      cases h1 : env.libindexNew (indexerOpts conf) with
      | error e1 => simp [Services, hm, h1]
      | ok libI => simp [Services, hm, h1] at he
    | matcher =>
      cases h1 : env.libvulnNew (libvulnOpts conf) with
      | error e1 => simp [Services, hm, h1]
      | ok libV =>
        cases h2 : env.clientFor intraserviceClaim with
        | error e2 => simp [Services, hm, h1, h2]
        | ok p =>
          obtain ⟨c, au⟩ := p
          by_cases hau : (!au && conf.authAny) = true
          · simp [Services, hm, h1, h2, hau]
          · cases h3 : env.clientNewHTTP conf.matcher.indexerAddr c with
            | error e3 => simp [Services, hm, h1, h2, hau, h3]
            | ok ri => simp [Services, hm, h1, h2, hau, h3] at he
    | notifier =>
      cases h1 : env.clientFor intraserviceClaim with
      | error e1 => simp [Services, hm, h1]
      | ok p =>
        obtain ⟨c, au⟩ := p
        by_cases hau : (!au && conf.authAny) = true
        · simp [Services, hm, h1, hau]
        · cases h2 : env.clientNewHTTP conf.notifier.indexerAddr c with
          | error e2 => simp [Services, hm, h1, hau, h2]
          | ok ri =>
            cases h3 : env.clientNewHTTP conf.notifier.matcherAddr c with
            | error e3 => simp [Services, hm, h1, hau, h2, h3]
            | ok rm =>
              cases h4 : env.clientFor notifierClaim with
              | error e4 => simp [Services, hm, h1, hau, h2, h3, h4]
              | ok p2 =>
                obtain ⟨c2, au2⟩ := p2
                cases h5 : env.notifierNew
                    { deliveryInterval := conf.notifier.deliveryInterval
                      connString := conf.notifier.connString
                      indexer := .rmt ri
                      matcher := .rmt rm
                      client := c2
                      migrations := conf.notifier.migrations
                      pollInterval := conf.notifier.pollInterval
                      disableSummary := false
                      webhook := conf.notifier.webhook
                      amqp := conf.notifier.amqp
                      stomp := conf.notifier.stomp } with
                | error e5 => simp [Services, hm, h1, hau, h2, h3, h4, h5]
                | ok n => simp [Services, hm, h1, hau, h2, h3, h4, h5] at he
    | unknown s => simp [Services, hm]
  · intro hm t e h1 h2
    simp [Services, hm, h1, h2]

/-- Witness for C3: in Combined mode with a failing libvuln constructor and
failing signing, the error is the libvuln failure and nothing is written. -/
theorem services_error_no_writes_witness :
    ((withMode .combo).mode = .combo ∧
      vulnAndSignFailEnv.libindexNew (indexerOpts (withMode .combo)) = .ok 11 ∧
      vulnAndSignFailEnv.libvulnNew (libvulnOpts (withMode .combo)) = .error ⟨"vuln-boom"⟩ ∧
      (Services (withMode .combo) vulnAndSignFailEnv).err =
        some (.errorf ("failed to initialize libvuln: " ++ "vuln-boom")) ∧
      (Services (withMode .combo) vulnAndSignFailEnv).writes = []) ∧
    ((Services (withMode .combo) vulnAndSignFailEnv).err =
        some (.errorf ("failed to initialize libvuln: " ++ "vuln-boom")) →
      (Services (withMode .combo) vulnAndSignFailEnv).writes = []) := by
  have h := services_error_no_writes (withMode .combo) vulnAndSignFailEnv
  have h2 := h.2 rfl 11 ⟨"vuln-boom"⟩ rfl rfl
  exact ⟨⟨rfl, rfl, rfl, h2.1, h2.2⟩, fun he => h.1 _ he⟩

end Clair

namespace Clair

/-- Counterexample to C4 as stated: in MatcherOnly mode with claim signing
failing outright, the local Matcher construction IS attempted — the call
trace records `libvuln.New` first, before the failing client build — so
`Services` does not return the signing error before local Matcher
construction. -/
theorem services_matcher_order_counterexample :
    Services (withMode .matcher) signFailEnv =
      { calls := [.libvulnNew (libvulnOpts (withMode .matcher)),
                  .clientBuild intraserviceClaim],
        writes := [], err := some (.ext ⟨"sign"⟩) } := rfl

/-- C4 (amended): in MatcherOnly mode the local Matcher is constructed before
the intra-service client; if claim signing then fails outright, `Services`
returns that error having made exactly the matcher construction followed by
the client build, and writes no handle field. -/
theorem services_matcher_local_first (conf : Config) (env : Env) (t : Nat) (e : ExtErr)
    (hm : conf.mode = .matcher)
    (hv : env.libvulnNew (libvulnOpts conf) = .ok t)
    (hc : env.clientFor intraserviceClaim = .error e) :
    Services conf env =
      { calls := [.libvulnNew (libvulnOpts conf), .clientBuild intraserviceClaim],
        writes := [], err := some (.ext e) } := by
  simp [Services, hm, hv, hc]

/-- Witness for the amended C4: the ordering theorem at the sample
configuration with signing failing. -/
theorem services_matcher_local_first_witness :
    (withMode .matcher).mode = .matcher ∧
    okEnv.libvulnNew (libvulnOpts (withMode .matcher)) = .ok 12 ∧
    signFailEnv.clientFor intraserviceClaim = .error ⟨"sign"⟩ ∧
    Services (withMode .matcher) signFailEnv =
      { calls := [.libvulnNew (libvulnOpts (withMode .matcher)),
                  .clientBuild intraserviceClaim],
        writes := [], err := some (.ext ⟨"sign"⟩) } :=
  ⟨rfl, rfl, rfl,
    services_matcher_local_first (withMode .matcher) signFailEnv 12 ⟨"sign"⟩ rfl rfl rfl⟩

/-- C5 at its failing input: in NotifierOnly mode with `DisableSummary = true`
in the configuration, `Services` succeeds but the options handed to
`notifier.New` carry `disableSummary = false` — the NotifierMode options
literal omits the field, so the summary-disable flag from the configuration is
dropped (ComboMode does pass it). -/
theorem services_notifier_drops_disable_summary :
    (withMode .notifier).notifier.disableSummary = true ∧
    (Services (withMode .notifier) okEnv).err = none ∧
    (Services (withMode .notifier) okEnv).calls =
      [.clientBuild intraserviceClaim,
       .clientNewHTTP "http://indexer" 13,
       .clientNewHTTP "http://matcher" 13,
       .clientBuild notifierClaim,
       .notifierNew
         { deliveryInterval := 3, connString := "notifier-conn",
           indexer := .rmt 14, matcher := .rmt 14, client := 13,
           migrations := true, pollInterval := 4, disableSummary := false,
           webhook := some 1, amqp := none, stomp := none }] :=
  ⟨rfl, rfl, rfl⟩

end Clair

namespace Clair

theorem scannerDecoderMap_none_or_empty (m : Option (List (String × Node)))
    (h : m = none ∨ m = some []) (name : String) :
    decoderLookup (scannerDecoderMap m) name = none := by
  rcases h with h | h <;> subst h <;> rfl

theorem scannerDecoderMap_entries (es : List (String × Node))
    (hn : (es.map Prod.fst).Nodup) :
    scannerDecoderMap (some es) =
      some (es.map fun p => (p.1, p.2.decodeClosure)) := by
  have hkeys : ((es.map fun p => (p.1, p.2.decodeClosure)).map Prod.fst) =
      es.map Prod.fst := by
    simp [List.map_map, Function.comp_def]
  simp only [scannerDecoderMap]
  rw [foldAssign_eq_self _ (hkeys ▸ hn)]

/-- C7: for each of the three scanner-config maps (Package, Dist, Repo), a nil
or empty ecosystem map yields indexer options in which no ecosystem name has a
configured decoder, while a map with N entries yields a decoder map with
exactly N entries, keyed by the original names, each mapped to that entry's
decode closure. -/
theorem scanner_decoder_roundtrip (conf : Config) :
    ((conf.indexer.scanner.package = none ∨ conf.indexer.scanner.package = some []) →
      ∀ name, decoderLookup (indexerOpts conf).scannerConfig.package name = none) ∧
    (∀ es, conf.indexer.scanner.package = some es → (es.map Prod.fst).Nodup →
      ∃ ds, (indexerOpts conf).scannerConfig.package = some ds ∧
        ds.length = es.length ∧ ds.map Prod.fst = es.map Prod.fst ∧
        ∀ name, mapLookup ds name = (mapLookup es name).map Node.decodeClosure) ∧
    ((conf.indexer.scanner.dist = none ∨ conf.indexer.scanner.dist = some []) →
      ∀ name, decoderLookup (indexerOpts conf).scannerConfig.dist name = none) ∧
    (∀ es, conf.indexer.scanner.dist = some es → (es.map Prod.fst).Nodup →
      ∃ ds, (indexerOpts conf).scannerConfig.dist = some ds ∧
        ds.length = es.length ∧ ds.map Prod.fst = es.map Prod.fst ∧
        ∀ name, mapLookup ds name = (mapLookup es name).map Node.decodeClosure) ∧
    ((conf.indexer.scanner.repo = none ∨ conf.indexer.scanner.repo = some []) →
      ∀ name, decoderLookup (indexerOpts conf).scannerConfig.repo name = none) ∧
    (∀ es, conf.indexer.scanner.repo = some es → (es.map Prod.fst).Nodup →
      ∃ ds, (indexerOpts conf).scannerConfig.repo = some ds ∧
        ds.length = es.length ∧ ds.map Prod.fst = es.map Prod.fst ∧
        ∀ name, mapLookup ds name = (mapLookup es name).map Node.decodeClosure) := by
  have build : ∀ (src : Option (List (String × Node))),
      ((src = none ∨ src = some []) →
        ∀ name, decoderLookup (scannerDecoderMap src) name = none) ∧
      (∀ es, src = some es → (es.map Prod.fst).Nodup →
        ∃ ds, scannerDecoderMap src = some ds ∧
          ds.length = es.length ∧ ds.map Prod.fst = es.map Prod.fst ∧
          ∀ name, mapLookup ds name = (mapLookup es name).map Node.decodeClosure) := by
    intro src
    refine ⟨scannerDecoderMap_none_or_empty src, ?_⟩
    intro es hsrc hn
    subst hsrc
    refine ⟨es.map fun p => (p.1, p.2.decodeClosure),
      scannerDecoderMap_entries es hn, by simp, ?_, ?_⟩
    · simp [List.map_map, Function.comp_def]
    · intro name
      exact mapLookup_map_value Node.decodeClosure es name
  exact ⟨(build conf.indexer.scanner.package).1, (build conf.indexer.scanner.package).2,
    (build conf.indexer.scanner.dist).1, (build conf.indexer.scanner.dist).2,
    (build conf.indexer.scanner.repo).1, (build conf.indexer.scanner.repo).2⟩

/-- Witness for C7: the round-trip theorem at the sample configuration, whose
Package map holds one entry, whose Dist map is nil and whose Repo map is
empty. -/
theorem scanner_decoder_roundtrip_witness :
    (sampleConf.indexer.scanner.package = some [("gobin", ⟨1⟩)] ∧
      ([("gobin", (⟨1⟩ : Node))].map Prod.fst).Nodup ∧
      ∃ ds, (indexerOpts sampleConf).scannerConfig.package = some ds ∧
        ds.length = 1 ∧ ds.map Prod.fst = ["gobin"] ∧
        ∀ name, mapLookup ds name =
          (mapLookup [("gobin", (⟨1⟩ : Node))] name).map Node.decodeClosure) ∧
    (sampleConf.indexer.scanner.dist = none ∧
      decoderLookup (indexerOpts sampleConf).scannerConfig.dist "gobin" = none) ∧
    (sampleConf.indexer.scanner.repo = some [] ∧
      decoderLookup (indexerOpts sampleConf).scannerConfig.repo "gobin" = none) := by
  have h := scanner_decoder_roundtrip sampleConf
  refine ⟨⟨rfl, by decide, ?_⟩, ⟨rfl, ?_⟩, ⟨rfl, ?_⟩⟩
  · have := h.2.1 [("gobin", ⟨1⟩)] rfl (by decide)
    simpa using this
  · exact h.2.2.1 (Or.inl rfl) "gobin"
  · exact h.2.2.2.2.1 (Or.inr rfl) "gobin"

/-- C9: the authentication gate applies only to intra-service-claim clients;
the `authed` flag of the notifier-claim client is discarded, so in Combined
and NotifierOnly modes initialization succeeds even when that client is
unauthenticated while the policy mandates some method. -/
theorem notifier_claim_auth_discarded (conf : Config) (env : Env)
    (a b c c2 ri n : Nat) :
    (conf.mode = .combo →
      env.libindexNew (indexerOpts conf) = .ok a →
      env.libvulnNew (libvulnOpts conf) = .ok b →
      env.clientFor notifierClaim = .ok (c, false) →
      conf.authAny = true →
      (∀ o, env.notifierNew o = .ok n) →
      (Services conf env).err = none) ∧
    (conf.mode = .notifier →
      env.clientFor intraserviceClaim = .ok (c2, true) →
      env.clientFor notifierClaim = .ok (c, false) →
      conf.authAny = true →
      (∀ addr k, env.clientNewHTTP addr k = .ok ri) →
      (∀ o, env.notifierNew o = .ok n) →
      (Services conf env).err = none) := by
  constructor
  · intro hm h1 h2 h3 _hA hn
    simp [Services, hm, h1, h2, h3, hn]
  · intro hm hi h3 _hA hH hn
    simp [Services, hm, hi, h3, hH, hn]

/-- Witness for C9: both modes under an environment whose intra-service client
is authenticated but whose notifier-claim client is not, with the policy
mandating authentication. -/
theorem notifier_claim_auth_discarded_witness :
    (withMode .combo).authAny = true ∧
    notifierUnauthEnv.clientFor notifierClaim = .ok (16, false) ∧
    (Services (withMode .combo) notifierUnauthEnv).err = none ∧
    notifierUnauthEnv.clientFor intraserviceClaim = .ok (13, true) ∧
    (Services (withMode .notifier) notifierUnauthEnv).err = none := by
  have h := notifier_claim_auth_discarded (withMode .combo) notifierUnauthEnv
    11 12 16 13 14 15
  have h2 := notifier_claim_auth_discarded (withMode .notifier) notifierUnauthEnv
    11 12 16 13 14 15
  exact ⟨rfl, rfl,
    h.1 rfl rfl rfl rfl rfl (fun o => rfl),
    rfl,
    h2.2 rfl rfl rfl rfl (fun addr k => rfl) (fun o => rfl)⟩

/-- C10: in IndexerOnly mode `Services` writes nil to the Matcher field
explicitly but never writes the Notifier field, and in MatcherOnly mode it
never writes the Notifier field at all: the Notifier's absence in these modes
comes only from the field's prior value. -/
theorem services_notifier_field_untouched (conf : Config) (env : Env) :
    (conf.mode = .indexer →
      (∀ v, FieldWrite.notifier v ∉ (Services conf env).writes) ∧
      ((Services conf env).err = none →
        FieldWrite.matcher none ∈ (Services conf env).writes) ∧
      (∀ s, (applyWrites s (Services conf env).writes).notifier = s.notifier)) ∧
    (conf.mode = .matcher →
      (∀ v, FieldWrite.notifier v ∉ (Services conf env).writes) ∧
      (∀ s, (applyWrites s (Services conf env).writes).notifier = s.notifier)) := by
  constructor
  · intro hm
    cases h1 : env.libindexNew (indexerOpts conf) with
    | error e =>
      refine ⟨?_, ?_, ?_⟩ <;>
        simp [Services, hm, h1, applyWrites, applyWrite]
    | ok libI =>
      refine ⟨?_, ?_, ?_⟩ <;>
        simp [Services, hm, h1, applyWrites, applyWrite]
  · intro hm
    cases h1 : env.libvulnNew (libvulnOpts conf) with
    | error e =>
      refine ⟨?_, ?_⟩ <;> simp [Services, hm, h1, applyWrites, applyWrite]
    | ok libV =>
      cases h2 : env.clientFor intraserviceClaim with
      | error e =>
        refine ⟨?_, ?_⟩ <;> simp [Services, hm, h1, h2, applyWrites, applyWrite]
      | ok p =>
        obtain ⟨c, au⟩ := p
        by_cases hau : (!au && conf.authAny) = true
        · refine ⟨?_, ?_⟩ <;>
            simp [Services, hm, h1, h2, hau, applyWrites, applyWrite]
        · cases h3 : env.clientNewHTTP conf.matcher.indexerAddr c with
          | error e =>
            refine ⟨?_, ?_⟩ <;>
              simp [Services, hm, h1, h2, hau, h3, applyWrites, applyWrite]
          | ok ri =>
            refine ⟨?_, ?_⟩ <;>
              simp [Services, hm, h1, h2, hau, h3, applyWrites, applyWrite]

/-- Witness for C10: concrete membership and frame facts in IndexerOnly and
MatcherOnly mode under the all-succeeding environment, with a sentinel prior
Notifier value surviving untouched. -/
theorem services_notifier_field_untouched_witness :
    FieldWrite.notifier (some 5) ∉ (Services (withMode .indexer) okEnv).writes ∧
    FieldWrite.matcher none ∈ (Services (withMode .indexer) okEnv).writes ∧
    (applyWrites ⟨none, none, some 99⟩
      (Services (withMode .indexer) okEnv).writes).notifier = some 99 ∧
    FieldWrite.notifier none ∉ (Services (withMode .matcher) okEnv).writes ∧
    (applyWrites ⟨none, none, some 99⟩
      (Services (withMode .matcher) okEnv).writes).notifier = some 99 := by
  have hi := (services_notifier_field_untouched (withMode .indexer) okEnv).1 rfl
  have hm := (services_notifier_field_untouched (withMode .matcher) okEnv).2 rfl
  exact ⟨hi.1 (some 5), hi.2.1 rfl, hi.2.2 ⟨none, none, some 99⟩,
    hm.1 none, hm.2 ⟨none, none, some 99⟩⟩

end Clair

namespace Clair

/-- Validation of the SHA-256 model against the NIST test vector for "abc". -/
example : hexStr (sha256 (strBytes "abc")) =
    "ba7816bf8f01cfea414140de5dae2223b00361a396177a9cb410ff61f20015ad" := by decide

/-- Validation of the SHA-256 model against the NIST test vector for the empty
message. -/
example : hexStr (sha256 (strBytes "")) =
    "e3b0c44298fc1c149afbf4c8996fb92427ae41e4649b934ca495991b7852b855" := by decide

/-- Counterexample to C8 as stated: the document whose root Go map holds the
integer key `1` and the string key `"1"` (both rendered "1" by `fmt.Sprint`) —
the two entries denote the same map, yet the two iteration orders produce
different embedded JSON constants ("\x7b\"1\":\"y\"\x7d" versus
"\x7b\"1\":\"x\"\x7d"), so the JSON constant is not a function of the
document. -/
theorem openapigen_collision_counterexample :
    YEquiv (Yaml.map [(.num 1, .str "x"), (.str "1", .str "y")])
      (Yaml.map [(.str "1", .str "y"), (.num 1, .str "x")]) ∧
    (openapigen (Yaml.map [(.num 1, .str "x"), (.str "1", .str "y")])).openapiJSON ≠
      (openapigen (Yaml.map [(.str "1", .str "y"), (.num 1, .str "x")])).openapiJSON := by
  constructor
  · exact .map _ (yequivEntries_refl _)
      (List.Perm.swap ((YKey.str "1", Yaml.str "y") : YKey × Yaml)
        ((YKey.num 1, Yaml.str "x") : YKey × Yaml) [])
  · have h₁ : (openapigen (Yaml.map [(.num 1, .str "x"),
        (.str "1", .str "y")])).openapiJSON = "\x7b\"1\":\"y\"\x7d" := by
      simp [openapigen, convert, convertList, convertEntries, YKey.render, mapAssign,
        foldAssign, sortFields, marshal, marshalFields, jsonQuote, jsonEscapeChar,
        hexDigit, String.join]
    have ht : toString (1 : Int) = "1" := rfl
    have h₂ : (openapigen (Yaml.map [(.str "1", .str "y"),
        (.num 1, .str "x")])).openapiJSON = "\x7b\"1\":\"x\"\x7d" := by
      simp [openapigen, convert, convertList, convertEntries, YKey.render, mapAssign,
        foldAssign, sortFields, marshal, marshalFields, jsonQuote, jsonEscapeChar,
        hexDigit, String.join, ht]
    rw [h₁, h₂]
    decide

/-- C8 (amended): for documents in which no mapping, at any nesting level, has
two keys with the same `fmt.Sprint` rendering, the embedded JSON constant is a
deterministic function of the document — invariant under every map's
iteration order at every level — and for every document the emitted
content-hash constant is exactly the double-quoted lowercase hex SHA-256
digest of the emitted JSON constant. -/
theorem openapigen_deterministic_and_etag (d₁ d₂ : Yaml)
    (he : YEquiv d₁ d₂) (hn : NodupKeys d₁) :
    openapigen d₁ = openapigen d₂ ∧
    ∀ doc : Yaml, (openapigen doc).openapiJSONEtag =
      "\"" ++ hexStr (sha256 (strBytes (openapigen doc).openapiJSON)) ++ "\"" := by
  constructor
  · simp [openapigen, convert_equiv he hn]
  · intro doc
    rfl

/-- Witness for the amended C8: a document with a nested map, permuted both at
the root and inside the nested map; the outputs coincide and the etag is the
quoted digest of the JSON constant. -/
theorem openapigen_deterministic_and_etag_witness :
    YEquiv
      (Yaml.map [(.str "outer", .map [(.str "b", .num 1), (.str "a", .str "x")]),
        (.str "z", .num 2)])
      (Yaml.map [(.str "z", .num 2),
        (.str "outer", .map [(.str "a", .str "x"), (.str "b", .num 1)])]) ∧
    NodupKeys
      (Yaml.map [(.str "outer", .map [(.str "b", .num 1), (.str "a", .str "x")]),
        (.str "z", .num 2)]) ∧
    openapigen
      (Yaml.map [(.str "outer", .map [(.str "b", .num 1), (.str "a", .str "x")]),
        (.str "z", .num 2)]) =
      openapigen
        (Yaml.map [(.str "z", .num 2),
          (.str "outer", .map [(.str "a", .str "x"), (.str "b", .num 1)])]) ∧
    (openapigen
      (Yaml.map [(.str "outer", .map [(.str "b", .num 1), (.str "a", .str "x")]),
        (.str "z", .num 2)])).openapiJSONEtag =
      "\"" ++ hexStr (sha256 (strBytes (openapigen
        (Yaml.map [(.str "outer", .map [(.str "b", .num 1), (.str "a", .str "x")]),
          (.str "z", .num 2)])).openapiJSON)) ++ "\"" := by
  have hinner : YEquiv (Yaml.map [(.str "b", .num 1), (.str "a", .str "x")])
      (Yaml.map [(.str "a", .str "x"), (.str "b", .num 1)]) :=
    .map _ (yequivEntries_refl _)
      (List.Perm.swap ((YKey.str "a", Yaml.str "x") : YKey × Yaml)
        ((YKey.str "b", Yaml.num 1) : YKey × Yaml) [])
  have he : YEquiv
      (Yaml.map [(.str "outer", .map [(.str "b", .num 1), (.str "a", .str "x")]),
        (.str "z", .num 2)])
      (Yaml.map [(.str "z", .num 2),
        (.str "outer", .map [(.str "a", .str "x"), (.str "b", .num 1)])]) :=
    .map [(.str "outer", .map [(.str "a", .str "x"), (.str "b", .num 1)]),
        (.str "z", .num 2)]
      (.cons hinner (yequivEntries_refl _))
      (List.Perm.swap ((YKey.str "z", Yaml.num 2) : YKey × Yaml)
        ((YKey.str "outer",
          Yaml.map [(.str "a", .str "x"), (.str "b", .num 1)]) : YKey × Yaml) [])
  have hn : NodupKeys
      (Yaml.map [(.str "outer", .map [(.str "b", .num 1), (.str "a", .str "x")]),
        (.str "z", .num 2)]) :=
    .map (by decide)
      (.cons (.map (by decide) (.cons (.num 1) (.cons (.str "x") .nil)))
        (.cons (.num 2) .nil))
  have h := openapigen_deterministic_and_etag _ _ he hn
  exact ⟨he, hn, h.1, h.2 _⟩

end Clair
